import Mathlib

/-
Verification of the pymeschooldata bridge adapter (core.py): a thin rpy2
wrapper around the meschooldata R package.  The embedding models the
module-level mutable cache `_pkg` by explicit state passing, foreign calls
and fallible Python operations by `Except`, and the duck-typed return value
of the R-side get_available_years by a record of the capabilities that
core.py probes (isinstance dict, hasattr rx2, getattr names, positional
indexing, and the observed type name).
-/

/-- Scalar value arriving across the R bridge: either an integer-valued
scalar, which the int() coercion in core.py accepts, or some other value on
which the coercion raises. -/
inductive RScalar : Type where
  | int (n : Int)
  | nonIntegral (desc : String)
deriving DecidableEq

/-- Python-level errors the wrapper functions can surface.  `rCallError` is
a failure raised inside the R package, `packageLoadError` a failure of
importr, `unexpectedReturnType` the TypeError raised at the end of
get_available_years (it carries the observed type name), and the remaining
constructors the KeyError / IndexError / coercion failures that the
normalization steps can raise. -/
inductive PyErr : Type where
  | packageLoadError (msg : String)
  | rCallError (msg : String)
  | keyError (key : String)
  | indexError
  | coercionError (desc : String)
  | unexpectedReturnType (typeName : String)
deriving DecidableEq

/-- The int(x) coercion applied by core.py to bridge scalars. -/
def coerceInt : RScalar → Except PyErr Int
  | .int n => .ok n
  | .nonIntegral d => .error (.coercionError d)

/-- A value returned by the R package's get_available_years through rpy2,
as observed by the duck-typed probes in core.py: `dictEntries` is `some`
exactly when `isinstance(r_result, dict)` holds, `rx2Entries` is `some`
exactly when `hasattr(r_result, "rx2")` holds (name-indexed extraction,
each name mapping to a vector of scalars), `namesAttr` models
`getattr(r_result, "names", None)`, `positional` models integer indexing
`r_result[i]`, and `typeName` models `type(r_result)`. -/
structure RValue : Type where
  dictEntries : Option (List (String × RScalar))
  rx2Entries : Option (List (String × List RScalar))
  namesAttr : Option (List String)
  positional : List RScalar
  typeName : String
deriving DecidableEq

/-- Lookup in an association list keyed by strings (Python dict lookup /
rpy2 rx2 extraction; `none` models the KeyError / LookupError case). -/
def assocLookup {α : Type} : List (String × α) → String → Option α
  | [], _ => none
  | (k, v) :: rest, key => if k = key then some v else assocLookup rest key

/-- Python dict assignment `result[k] = v` on an insertion-ordered dict
represented as an association list: update in place when the key is
present, append otherwise. -/
def dictInsert (d : List (String × Int)) (k : String) (v : Int) : List (String × Int) :=
  if d.any (fun p => decide (p.1 = k)) then
    d.map (fun p => if p.1 = k then (k, v) else p)
  else
    d ++ [(k, v)]

/-- Branch 1 of get_available_years: the return value is already a native
dict; build the literal with both values coerced to int, min_year first
(KeyError if a key is missing, coercion error if a value is not
integer-valued). -/
def dictBranch (d : List (String × RScalar)) : Except PyErr (List (String × Int)) :=
  match assocLookup d "min_year" with
  | none => .error (.keyError "min_year")
  | some v1 =>
    match coerceInt v1 with
    | .error e => .error e
    | .ok a =>
      match assocLookup d "max_year" with
      | none => .error (.keyError "max_year")
      | some v2 =>
        match coerceInt v2 with
        | .error e => .error e
        | .ok b => .ok [("min_year", a), ("max_year", b)]

/-- Branch 2 of get_available_years: the object supports rx2 extraction;
for each key, extract by name, take element 0, coerce to int. -/
def rx2Branch (es : List (String × List RScalar)) : Except PyErr (List (String × Int)) :=
  match assocLookup es "min_year" with
  | none => .error (.keyError "min_year")
  | some vs1 =>
    match vs1.head? with
    | none => .error .indexError
    | some v1 =>
      match coerceInt v1 with
      | .error e => .error e
      | .ok a =>
        match assocLookup es "max_year" with
        | none => .error (.keyError "max_year")
        | some vs2 =>
          match vs2.head? with
          | none => .error .indexError
          | some v2 =>
            match coerceInt v2 with
            | .error e => .error e
            | .ok b => .ok [("min_year", a), ("max_year", b)]

/-- The loop of branch 3 of get_available_years: `for i, name in
enumerate(names): if name in (min_year, max_year): result[name] =
int(r_result[i])`. -/
def namesLoop (positional : List RScalar) :
    List String → Nat → List (String × Int) → Except PyErr (List (String × Int))
  | [], _, result => .ok result
  | name :: rest, i, result =>
    if name = "min_year" ∨ name = "max_year" then
      match positional[i]? with
      | none => .error .indexError
      | some v =>
        match coerceInt v with
        | .error e => .error e
        | .ok n => namesLoop positional rest (i + 1) (dictInsert result name n)
    else
      namesLoop positional rest (i + 1) result

/-- Branch 3 of get_available_years: scan the names attribute starting
from an empty result dict. -/
def namesBranch (ns : List String) (positional : List RScalar) :
    Except PyErr (List (String × Int)) :=
  namesLoop positional ns 0 []

/-- The normalization section of get_available_years in core.py: the
duck-typed shape probes, tried in source order, with the TypeError carrying
the observed type when none applies. -/
def normalizeYears (r : RValue) : Except PyErr (List (String × Int)) :=
  match r.dictEntries with
  | some d => dictBranch d
  | none =>
    match r.rx2Entries with
    | some es => rx2Branch es
    | none =>
      match r.namesAttr with
      | some ns => namesBranch ns r.positional
      | none => .error (.unexpectedReturnType r.typeName)

/-- A table value crossing the bridge: either the caller environment's
native tabular representation (a pandas DataFrame) or a foreign R object;
`id` distinguishes individual tables. -/
inductive TableVal : Type where
  | native (id : Nat)
  | foreign (id : Nat)
deriving DecidableEq

/-- The `isinstance(x, pd.DataFrame)` probe used in core.py. -/
def TableVal.isNative : TableVal → Bool
  | .native _ => true
  | .foreign _ => false

/-- The R integer vector built by `robjects.IntVector(end_years)`. -/
structure RIntVector : Type where
  vals : List Int
deriving DecidableEq

/-- The rpy2 conversion layer active inside the localconverter scope:
`rpy2py` converts a foreign value back to the native environment, `py2rpy`
converts a native table to the foreign representation. -/
structure Bridge : Type where
  rpy2py : TableVal → TableVal
  py2rpy : TableVal → TableVal

/-- The external R package handle as used by core.py: its four entry
points, each a foreign call that can raise. -/
structure RPackage : Type where
  fetch_enr : Int → Except PyErr TableVal
  fetch_enr_multi : RIntVector → Except PyErr TableVal
  tidy_enr : TableVal → Except PyErr TableVal
  get_available_years : Except PyErr RValue

/-- core.py fetch_enr: call the package's single-year fetch, return the
result as-is when it is already a native DataFrame, otherwise convert it
with rpy2py.  A foreign-call error propagates. -/
def fetch_enr (br : Bridge) (pkg : RPackage) (end_year : Int) : Except PyErr TableVal :=
  match pkg.fetch_enr end_year with
  | .error e => .error e
  | .ok r_df => .ok (if r_df.isNative then r_df else br.rpy2py r_df)

/-- core.py fetch_enr_multi: wrap the year list into an IntVector, call the
package's multi-year fetch, convert as in fetch_enr. -/
def fetch_enr_multi (br : Bridge) (pkg : RPackage) (end_years : List Int) :
    Except PyErr TableVal :=
  match pkg.fetch_enr_multi ⟨end_years⟩ with
  | .error e => .error e
  | .ok r_df => .ok (if r_df.isNative then r_df else br.rpy2py r_df)

/-- core.py tidy_enr: convert the input table to the foreign
representation, call the package's reshape, convert the result back as in
fetch_enr. -/
def tidy_enr (br : Bridge) (pkg : RPackage) (df : TableVal) : Except PyErr TableVal :=
  match pkg.tidy_enr (br.py2rpy df) with
  | .error e => .error e
  | .ok r_result => .ok (if r_result.isNative then r_result else br.rpy2py r_result)

/-- core.py get_available_years: call the package's range query, then
normalize the returned shape.  A foreign-call error propagates. -/
def get_available_years (pkg : RPackage) : Except PyErr (List (String × Int)) :=
  match pkg.get_available_years with
  | .error e => .error e
  | .ok r_result => normalizeYears r_result

/-- An opaque handle to the loaded R package (the value importr returns). -/
structure PkgHandle : Type where
  id : Nat
deriving DecidableEq

/-- Outcome of one call to the lazy loader: the new value of the
module-level `_pkg` cache, the returned handle or propagated exception, and
whether importr was invoked during this call. -/
structure GetPkgResult : Type where
  state : Option PkgHandle
  result : Except PyErr PkgHandle
  importCalled : Bool

/-- core.py _get_pkg: if the global `_pkg` is None, call importr (whose
outcome this call's environment fixes as `importResult`); on success store
and return the handle, on failure the exception propagates and the
assignment to `_pkg` never happens.  If `_pkg` is already set, return it
without calling importr. -/
def _get_pkg (importResult : Except PyErr PkgHandle) :
    Option PkgHandle → GetPkgResult
  | none =>
    match importResult with
    | .ok p => ⟨some p, .ok p, true⟩
    | .error e => ⟨none, .error e, true⟩
  | some p => ⟨some p, .ok p, false⟩

/-- Dispatch lemma: when the dict probe succeeds, normalization runs the
dict branch. -/
theorem normalizeYears_dict (r : RValue) (d : List (String × RScalar))
    (h : r.dictEntries = some d) : normalizeYears r = dictBranch d := by
  unfold normalizeYears
  rw [h]

/-- Dispatch lemma: when the dict probe fails and the rx2 probe succeeds,
normalization runs the rx2 branch. -/
theorem normalizeYears_rx2 (r : RValue) (es : List (String × List RScalar))
    (h1 : r.dictEntries = none) (h2 : r.rx2Entries = some es) :
    normalizeYears r = rx2Branch es := by
  unfold normalizeYears
  rw [h1, h2]

/-- Dispatch lemma: when the dict and rx2 probes fail and the names probe
succeeds, normalization runs the names branch. -/
theorem normalizeYears_names (r : RValue) (ns : List String)
    (h1 : r.dictEntries = none) (h2 : r.rx2Entries = none)
    (h3 : r.namesAttr = some ns) :
    normalizeYears r = namesBranch ns r.positional := by
  unfold normalizeYears
  rw [h1, h2, h3]

/-- Dispatch lemma: when all three probes fail, normalization raises the
TypeError carrying the observed type. -/
theorem normalizeYears_fallthrough (r : RValue)
    (h1 : r.dictEntries = none) (h2 : r.rx2Entries = none)
    (h3 : r.namesAttr = none) :
    normalizeYears r = .error (.unexpectedReturnType r.typeName) := by
  unfold normalizeYears
  rw [h1, h2, h3]

/-- C4: For every return value of the external range-query call,
get_available_years tries the normalization shapes in the source's fixed
order and commits to the first that applies: (1) native mapping, (2)
name-indexed rx2 extraction (first element of each extraction, coerced to
integer), (3) names attribute parallel to positional values, (4) otherwise
the TypeError carrying the observed type. -/
theorem normalizeYears_priority_order :
    (∀ r d, r.dictEntries = some d → normalizeYears r = dictBranch d) ∧
    (∀ r es, r.dictEntries = none → r.rx2Entries = some es →
      normalizeYears r = rx2Branch es) ∧
    (∀ r ns, r.dictEntries = none → r.rx2Entries = none → r.namesAttr = some ns →
      normalizeYears r = namesBranch ns r.positional) ∧
    (∀ r, r.dictEntries = none → r.rx2Entries = none → r.namesAttr = none →
      normalizeYears r = .error (.unexpectedReturnType r.typeName)) :=
  ⟨normalizeYears_dict, normalizeYears_rx2, normalizeYears_names, normalizeYears_fallthrough⟩

/-- Witness for C4: on a value passing all three probes at once, the dict
branch wins. -/
theorem normalizeYears_priority_order_witness :
    normalizeYears ⟨some [("min_year", .int 1), ("max_year", .int 2)],
        some [("min_year", [.int 9])], some ["min_year"], [.int 9], "dict"⟩
      = dictBranch [("min_year", .int 1), ("max_year", .int 2)] :=
  normalizeYears_priority_order.1 _ _ rfl

/-- C3: _get_pkg is an idempotent lazy singleton: the package is loaded on
the first successful call, and every later call returns the same cached
handle without invoking importr again, whatever importr would now do. -/
theorem get_pkg_lazy_singleton :
    ∀ (p : PkgHandle) (load2 : Except PyErr PkgHandle),
      _get_pkg (.ok p) none = ⟨some p, .ok p, true⟩ ∧
      _get_pkg load2 (some p) = ⟨some p, .ok p, false⟩ :=
  fun _ _ => ⟨rfl, rfl⟩

/-- C10: when importr fails, the exception propagates and the `_pkg` cache
stays unset, so the failure is not cached: any later call with the cache
still unset invokes importr again. -/
theorem load_failure_not_cached :
    ∀ (e : PyErr) (load2 : Except PyErr PkgHandle),
      _get_pkg (.error e) none = ⟨none, .error e, true⟩ ∧
      (_get_pkg load2 none).importCalled = true := by
  intro e load2
  refine ⟨rfl, ?_⟩
  cases load2 <;> rfl

/-- C6: given that the external package's multi-year fetch on the
singleton vector of Y agrees with its single-year fetch on Y, the wrapper
fetch_enr_multi on the one-element list agrees with fetch_enr. -/
theorem fetch_enr_multi_singleton_consistent (br : Bridge) (pkg : RPackage) (y : Int)
    (h : pkg.fetch_enr_multi ⟨[y]⟩ = pkg.fetch_enr y) :
    fetch_enr_multi br pkg [y] = fetch_enr br pkg y := by
  unfold fetch_enr_multi fetch_enr
  rw [h]

/-- Witness for C6 at a concrete package whose two fetch entry points
agree. -/
theorem fetch_enr_multi_singleton_consistent_witness :
    fetch_enr_multi ⟨fun v => v, fun v => v⟩
        ⟨fun _ => .ok (.native 1), fun _ => .ok (.native 1), fun _ => .ok (.native 1),
          .error .indexError⟩ [2020]
      = fetch_enr ⟨fun v => v, fun v => v⟩
        ⟨fun _ => .ok (.native 1), fun _ => .ok (.native 1), fun _ => .ok (.native 1),
          .error .indexError⟩ 2020 :=
  fetch_enr_multi_singleton_consistent _ _ 2020 rfl

/-- C8: a failure raised inside any of the external package's four entry
points propagates to the caller unmodified: the wrapper returns the very
same error value, with no wrapping and no recovery. -/
theorem foreign_errors_propagate (br : Bridge) (pkg : RPackage) (e : PyErr) :
    (∀ y, pkg.fetch_enr y = .error e → fetch_enr br pkg y = .error e) ∧
    (∀ ys, pkg.fetch_enr_multi ⟨ys⟩ = .error e → fetch_enr_multi br pkg ys = .error e) ∧
    (∀ df, pkg.tidy_enr (br.py2rpy df) = .error e → tidy_enr br pkg df = .error e) ∧
    (pkg.get_available_years = .error e → get_available_years pkg = .error e) := by
  refine ⟨fun y h => ?_, fun ys h => ?_, fun df h => ?_, fun h => ?_⟩
  · unfold fetch_enr; rw [h]
  · unfold fetch_enr_multi; rw [h]
  · unfold tidy_enr; rw [h]
  · unfold get_available_years; rw [h]

/-- Witness for C8 at a concrete package all of whose entry points raise. -/
theorem foreign_errors_propagate_witness :
    fetch_enr ⟨fun v => v, fun v => v⟩
        ⟨fun _ => .error (.rCallError "boom"), fun _ => .error (.rCallError "boom"),
          fun _ => .error (.rCallError "boom"), .error (.rCallError "boom")⟩ 2025
      = .error (.rCallError "boom") :=
  (foreign_errors_propagate _ _ _).1 2025 rfl

/-- C7: normalization maps the plain mapping with min_year 2015 and
max_year 2025 to the dictionary with exactly those two integer entries, and
maps a value exposing only the parallel names list to that same
dictionary. -/
theorem normalizeYears_concrete_shapes :
    normalizeYears ⟨some [("min_year", .int 2015), ("max_year", .int 2025)],
        none, none, [], "dict"⟩
      = .ok [("min_year", 2015), ("max_year", 2025)] ∧
    normalizeYears ⟨none, none, some ["min_year", "max_year"],
        [.int 2015, .int 2025], "FloatVector"⟩
      = .ok [("min_year", 2015), ("max_year", 2025)] :=
  ⟨rfl, rfl⟩

/-- int() coercion never raises the unexpected-return-type TypeError: its
failures are coercion errors. -/
theorem coerceInt_error (v : RScalar) (e : PyErr) (h : coerceInt v = .error e) :
    ∃ s, e = .coercionError s := by
  cases v with
  | int n => simp [coerceInt] at h
  | nonIntegral s =>
    simp [coerceInt] at h
    exact ⟨s, h.symm⟩

/-- The dict branch never raises the unexpected-return-type TypeError. -/
theorem dictBranch_ne_unexpected (d : List (String × RScalar)) (t : String) :
    dictBranch d ≠ .error (.unexpectedReturnType t) := by
  rcases h1 : assocLookup d "min_year" with _ | v1
  · simp [dictBranch, h1]
  rcases hv1 : coerceInt v1 with e | a
  · obtain ⟨s, rfl⟩ := coerceInt_error v1 e hv1
    simp [dictBranch, h1, hv1]
  rcases h2 : assocLookup d "max_year" with _ | v2
  · simp [dictBranch, h1, hv1, h2]
  rcases hv2 : coerceInt v2 with e2 | b
  · obtain ⟨s, rfl⟩ := coerceInt_error v2 e2 hv2
    simp [dictBranch, h1, hv1, h2, hv2]
  simp [dictBranch, h1, hv1, h2, hv2]

/-- A successful dict branch yields exactly the two-key dictionary, min
first. -/
theorem dictBranch_ok_shape (d : List (String × RScalar)) (out : List (String × Int))
    (h : dictBranch d = .ok out) :
    ∃ a b, out = [("min_year", a), ("max_year", b)] := by
  rcases h1 : assocLookup d "min_year" with _ | v1
  · simp [dictBranch, h1] at h
  rcases hv1 : coerceInt v1 with e | a
  · simp [dictBranch, h1, hv1] at h
  rcases h2 : assocLookup d "max_year" with _ | v2
  · simp [dictBranch, h1, hv1, h2] at h
  rcases hv2 : coerceInt v2 with e2 | b
  · simp [dictBranch, h1, hv1, h2, hv2] at h
  simp [dictBranch, h1, hv1, h2, hv2] at h
  exact ⟨a, b, h.symm⟩

/-- The rx2 branch never raises the unexpected-return-type TypeError. -/
theorem rx2Branch_ne_unexpected (es : List (String × List RScalar)) (t : String) :
    rx2Branch es ≠ .error (.unexpectedReturnType t) := by
  rcases h1 : assocLookup es "min_year" with _ | vs1
  · simp [rx2Branch, h1]
  rcases hh1 : vs1.head? with _ | v1
  · simp [rx2Branch, h1, hh1]
  rcases hv1 : coerceInt v1 with e | a
  · obtain ⟨s, rfl⟩ := coerceInt_error v1 e hv1
    simp [rx2Branch, h1, hh1, hv1]
  rcases h2 : assocLookup es "max_year" with _ | vs2
  · simp [rx2Branch, h1, hh1, hv1, h2]
  rcases hh2 : vs2.head? with _ | v2
  · simp [rx2Branch, h1, hh1, hv1, h2, hh2]
  rcases hv2 : coerceInt v2 with e2 | b
  · obtain ⟨s, rfl⟩ := coerceInt_error v2 e2 hv2
    simp [rx2Branch, h1, hh1, hv1, h2, hh2, hv2]
  simp [rx2Branch, h1, hh1, hv1, h2, hh2, hv2]

/-- A successful rx2 branch yields exactly the two-key dictionary, min
first. -/
theorem rx2Branch_ok_shape (es : List (String × List RScalar)) (out : List (String × Int))
    (h : rx2Branch es = .ok out) :
    ∃ a b, out = [("min_year", a), ("max_year", b)] := by
  rcases h1 : assocLookup es "min_year" with _ | vs1
  · simp [rx2Branch, h1] at h
  rcases hh1 : vs1.head? with _ | v1
  · simp [rx2Branch, h1, hh1] at h
  rcases hv1 : coerceInt v1 with e | a
  · simp [rx2Branch, h1, hh1, hv1] at h
  rcases h2 : assocLookup es "max_year" with _ | vs2
  · simp [rx2Branch, h1, hh1, hv1, h2] at h
  rcases hh2 : vs2.head? with _ | v2
  · simp [rx2Branch, h1, hh1, hv1, h2, hh2] at h
  rcases hv2 : coerceInt v2 with e2 | b
  · simp [rx2Branch, h1, hh1, hv1, h2, hh2, hv2] at h
  simp [rx2Branch, h1, hh1, hv1, h2, hh2, hv2] at h
  exact ⟨a, b, h.symm⟩

/-- The names-scan loop never raises the unexpected-return-type
TypeError. -/
theorem namesLoop_ne_unexpected (pos : List RScalar) (ns : List String) :
    ∀ i acc t, namesLoop pos ns i acc ≠ .error (.unexpectedReturnType t) := by
  induction ns with
  | nil =>
    intro i acc t h
    simp [namesLoop] at h
  | cons name rest ih =>
    intro i acc t h
    unfold namesLoop at h
    split at h
    · rcases hp : pos[i]? with _ | v
      · simp only [hp] at h
        simp at h
      · simp only [hp] at h
        rcases hv : coerceInt v with e | n
        · rw [hv] at h
          obtain ⟨s, rfl⟩ := coerceInt_error v e hv
          simp at h
        · rw [hv] at h
          exact ih _ _ _ h
    · exact ih _ _ _ h

/-- Python dict assignment preserves any predicate on the keys, when the
assigned key satisfies it. -/
theorem dictInsert_keys (P : String → Prop) (d : List (String × Int)) (k : String)
    (v : Int) (hd : ∀ kv ∈ d, P kv.1) (hk : P k) :
    ∀ kv ∈ dictInsert d k v, P kv.1 := by
  intro kv hkv
  unfold dictInsert at hkv
  split at hkv
  · obtain ⟨p, hp, hfp⟩ := List.mem_map.1 hkv
    by_cases hpk : p.1 = k
    · rw [if_pos hpk] at hfp
      rw [← hfp]
      exact hk
    · rw [if_neg hpk] at hfp
      rw [← hfp]
      exact hd p hp
  · rcases List.mem_append.1 hkv with hm | hm
    · exact hd kv hm
    · have hkv' := List.mem_singleton.1 hm
      subst hkv'
      exact hk

/-- Every key the names-scan loop ever records is min_year or max_year. -/
theorem namesLoop_keys (pos : List RScalar) (ns : List String) :
    ∀ i acc, (∀ kv ∈ acc, kv.1 = "min_year" ∨ kv.1 = "max_year") →
      ∀ out, namesLoop pos ns i acc = .ok out →
      ∀ kv ∈ out, kv.1 = "min_year" ∨ kv.1 = "max_year" := by
  induction ns with
  | nil =>
    intro i acc hacc out h
    simp [namesLoop] at h
    subst h
    exact hacc
  | cons name rest ih =>
    intro i acc hacc out h
    unfold namesLoop at h
    split at h
    · rename_i hname
      rcases hp : pos[i]? with _ | v
      · simp only [hp] at h
        simp at h
      · simp only [hp] at h
        rcases hv : coerceInt v with e | n
        · rw [hv] at h
          simp at h
        · rw [hv] at h
          exact ih _ _
            (dictInsert_keys (fun k => k = "min_year" ∨ k = "max_year") acc name n hacc hname)
            out h
    · exact ih _ _ hacc out h

/-- When no name matches, the names-scan loop returns its accumulator
unchanged and raises nothing. -/
theorem namesLoop_no_match (pos : List RScalar) (ns : List String) :
    ∀ i acc, (∀ n ∈ ns, ¬(n = "min_year" ∨ n = "max_year")) →
      namesLoop pos ns i acc = .ok acc := by
  induction ns with
  | nil => intro i acc _; rfl
  | cons name rest ih =>
    intro i acc hns
    unfold namesLoop
    rw [if_neg (hns name (List.mem_cons_self name rest))]
    exact ih (i + 1) acc (fun n hn => hns n (List.mem_cons_of_mem _ hn))

/-- C2: get_available_years raises the unexpected-return-type TypeError,
and raises it only, when the foreign return value matches none of the
three known shapes, and the error carries the observed type; in
particular a plain integer return value raises it. -/
theorem normalize_unexpected_type_iff :
    (∀ r t, normalizeYears r = .error (.unexpectedReturnType t) ↔
      (r.dictEntries = none ∧ r.rx2Entries = none ∧ r.namesAttr = none ∧
        t = r.typeName)) ∧
    normalizeYears ⟨none, none, none, [], "int"⟩
      = .error (.unexpectedReturnType "int") := by
  constructor
  · intro r t
    constructor
    · intro h
      obtain ⟨de, re, na, pos, tn⟩ := r
      cases de with
      | some d =>
        rw [normalizeYears_dict _ d rfl] at h
        exact absurd h (dictBranch_ne_unexpected d t)
      | none =>
        cases re with
        | some es =>
          rw [normalizeYears_rx2 _ es rfl rfl] at h
          exact absurd h (rx2Branch_ne_unexpected es t)
        | none =>
          cases na with
          | some ns =>
            rw [normalizeYears_names _ ns rfl rfl rfl] at h
            unfold namesBranch at h
            exact absurd h (namesLoop_ne_unexpected pos ns 0 [] t)
          | none =>
            rw [normalizeYears_fallthrough _ rfl rfl rfl] at h
            injection h with h
            injection h with h
            exact ⟨rfl, rfl, rfl, h.symm⟩
    · rintro ⟨h1, h2, h3, rfl⟩
      exact normalizeYears_fallthrough r h1 h2 h3
  · rfl

/-- Witness for C2: the iff applied backward at a shapeless value of type
float. -/
theorem normalize_unexpected_type_iff_witness :
    normalizeYears ⟨none, none, none, [], "float"⟩
      = .error (.unexpectedReturnType "float") :=
  (normalize_unexpected_type_iff.1 _ "float").mpr ⟨rfl, rfl, rfl, rfl⟩

/-- C9: a return value that is not a dict, lacks rx2, but has a non-None
names attribute containing neither min_year nor max_year normalizes,
without raising, to a dictionary missing those keys: the empty dict when
no name matches. -/
theorem names_branch_no_match_empty (r : RValue) (ns : List String)
    (h1 : r.dictEntries = none) (h2 : r.rx2Entries = none)
    (h3 : r.namesAttr = some ns)
    (h4 : "min_year" ∉ ns) (h5 : "max_year" ∉ ns) :
    normalizeYears r = .ok [] := by
  rw [normalizeYears_names r ns h1 h2 h3]
  unfold namesBranch
  refine namesLoop_no_match r.positional ns 0 [] (fun n hn hor => ?_)
  rcases hor with rfl | rfl
  · exact h4 hn
  · exact h5 hn

/-- Witness for C9 at a names-shaped value whose names match nothing. -/
theorem names_branch_no_match_empty_witness :
    normalizeYears ⟨none, none, some ["span", "years"], [.int 1, .int 2], "StrVector"⟩
      = .ok [] :=
  names_branch_no_match_empty _ ["span", "years"] rfl rfl rfl (by decide) (by decide)

/-- Counterexample to C1 as stated: get_available_years accepts a plain
mapping with min_year 2025 and max_year 2015 and returns it with min
greater than max (no ordering check exists), and accepts a names-shaped
value with no matching name, returning a dictionary without the two
keys. -/
theorem get_available_years_not_always_exact_range :
    get_available_years ⟨fun _ => .error .indexError, fun _ => .error .indexError,
        fun _ => .error .indexError,
        .ok ⟨some [("min_year", .int 2025), ("max_year", .int 2015)], none, none,
          [], "dict"⟩⟩
      = .ok [("min_year", 2025), ("max_year", 2015)] ∧
    ¬ ((2025 : Int) ≤ 2015) ∧
    get_available_years ⟨fun _ => .error .indexError, fun _ => .error .indexError,
        fun _ => .error .indexError,
        .ok ⟨none, none, some ["years"], [.int 7], "ListVector"⟩⟩
      = .ok [] :=
  ⟨rfl, by decide, rfl⟩

/-- C1 (amended): for every foreign return value the call accepts,
get_available_years returns a dictionary all of whose keys lie in the
pair min_year, max_year, with integer values; neither the presence of
both keys nor min less-or-equal max is guaranteed. -/
theorem get_available_years_keys_subset (pkg : RPackage) (r : RValue)
    (d : List (String × Int)) (h1 : pkg.get_available_years = .ok r)
    (h2 : get_available_years pkg = .ok d) :
    ∀ kv ∈ d, kv.1 = "min_year" ∨ kv.1 = "max_year" := by
  unfold get_available_years at h2
  simp only [h1] at h2
  obtain ⟨de, re, na, pos, tn⟩ := r
  cases de with
  | some dd =>
    rw [normalizeYears_dict _ dd rfl] at h2
    obtain ⟨a, b, rfl⟩ := dictBranch_ok_shape dd d h2
    intro kv hkv
    simp only [List.mem_cons, List.not_mem_nil, or_false] at hkv
    rcases hkv with rfl | rfl
    · exact Or.inl rfl
    · exact Or.inr rfl
  | none =>
    cases re with
    | some es =>
      rw [normalizeYears_rx2 _ es rfl rfl] at h2
      obtain ⟨a, b, rfl⟩ := rx2Branch_ok_shape es d h2
      intro kv hkv
      simp only [List.mem_cons, List.not_mem_nil, or_false] at hkv
      rcases hkv with rfl | rfl
      · exact Or.inl rfl
      · exact Or.inr rfl
    | none =>
      cases na with
      | some ns =>
        rw [normalizeYears_names _ ns rfl rfl rfl] at h2
        unfold namesBranch at h2
        exact namesLoop_keys pos ns 0 []
          (fun kv hkv => absurd hkv (List.not_mem_nil kv)) d h2
      | none =>
        rw [normalizeYears_fallthrough _ rfl rfl rfl] at h2
        exact Except.noConfusion h2

/-- Witness for C1 (amended) at an accepted plain-mapping value. -/
theorem get_available_years_keys_subset_witness :
    (("min_year", (2015 : Int)).1 = "min_year" ∨
      ("min_year", (2015 : Int)).1 = "max_year") :=
  get_available_years_keys_subset
    ⟨fun _ => .error .indexError, fun _ => .error .indexError,
      fun _ => .error .indexError,
      .ok ⟨some [("min_year", .int 2015), ("max_year", .int 2025)], none, none,
        [], "dict"⟩⟩
    _ _ rfl rfl ("min_year", 2015) (by decide)

/-- Each table coming back from a foreign fetch or reshape call is passed
through the isinstance check of core.py: returned unchanged when already
native, converted with rpy2py otherwise. -/
theorem convert_isNative (br : Bridge) (hconv : ∀ v, (br.rpy2py v).isNative = true)
    (r : TableVal) : (if r.isNative then r else br.rpy2py r).isNative = true := by
  by_cases hr : r.isNative = true
  · rw [if_pos hr]
    exact hr
  · rw [if_neg hr]
    exact hconv r

/-- C5: given that the rpy2py conversion always yields a native table,
every table fetch_enr, fetch_enr_multi or tidy_enr returns to the caller
is in the native representation, whether or not the bridge had already
converted the foreign result. -/
theorem returned_tables_native (br : Bridge) (pkg : RPackage)
    (hconv : ∀ v, (br.rpy2py v).isNative = true) :
    (∀ y t, fetch_enr br pkg y = .ok t → t.isNative = true) ∧
    (∀ ys t, fetch_enr_multi br pkg ys = .ok t → t.isNative = true) ∧
    (∀ df t, tidy_enr br pkg df = .ok t → t.isNative = true) := by
  refine ⟨fun y t h => ?_, fun ys t h => ?_, fun df t h => ?_⟩
  · unfold fetch_enr at h
    rcases hc : pkg.fetch_enr y with e | r_df
    · simp only [hc] at h
      exact Except.noConfusion h
    · simp only [hc] at h
      injection h with h
      rw [← h]
      exact convert_isNative br hconv r_df
  · unfold fetch_enr_multi at h
    rcases hc : pkg.fetch_enr_multi ⟨ys⟩ with e | r_df
    · simp only [hc] at h
      exact Except.noConfusion h
    · simp only [hc] at h
      injection h with h
      rw [← h]
      exact convert_isNative br hconv r_df
  · unfold tidy_enr at h
    rcases hc : pkg.tidy_enr (br.py2rpy df) with e | r_result
    · simp only [hc] at h
      exact Except.noConfusion h
    · simp only [hc] at h
      injection h with h
      rw [← h]
      exact convert_isNative br hconv r_result

/-- Witness for C5: a package returning a foreign table, a bridge whose
converter yields a native table. -/
theorem returned_tables_native_witness :
    TableVal.isNative (TableVal.native 0) = true :=
  (returned_tables_native ⟨fun _ => .native 0, fun v => v⟩
      ⟨fun _ => .ok (.foreign 7), fun _ => .ok (.foreign 7), fun _ => .ok (.foreign 7),
        .error .indexError⟩
      (fun _ => rfl)).1 2025 (.native 0) rfl
